import Mathlib

/-!
A shallow embedding of the gobrake remote-configuration poller
(`remote_config.go`) and of the notice filter pipeline (`filter.go`),
together with theorems checking the natural-language specification
against this embedding.

Conventions of the embedding:

* Go machine integers (`int64`, `time.Duration`) are modelled as `Int`
  with an explicit two's-complement wrap (`int64Wrap`) at the single
  operation where overflow is possible (the multiplication inside
  `Interval`).
* Go runtime panics (nil-pointer dereference, `close` of a closed
  channel, `time.NewTicker` with a non-positive interval, the explicit
  `panic` in `filterByKey`) are modelled with `Except GoPanic`.
* Mutation of the `remoteConfig` struct is modelled by explicit state
  passing over `RCState`; the channel/timer machinery of the poller is
  modelled by the `PollerState`/`TickerState` records, and the
  externally visible effects of `UpdateConfig` (stopping the ticker,
  creating a new one, invoking the callback) are recorded in an event
  trace (`Ev`).
* Go `map[string]interface` values are modelled as association lists
  (`KVMap`); Go's JSON decoding (`encoding/json`), an external
  collaborator of the repository, is abstracted as a `JSONDecoder`
  parameter, and a concrete executable decoder `jsonUnmarshalConfig`
  models the fragment of `encoding/json` exercised by the concrete
  configuration bodies used in witnesses (no string escapes, integer
  numbers only, exact field-name match, no null entries inside the
  settings array).
-/

/-- Values stored in the Go maps `map[string]interface` of a `Notice`
(`Context`, `Env`, `Session`): strings, integers, booleans, or other
opaque values identified by a tag. -/
inductive GoVal where
  | str (s : String) : GoVal
  | int (n : Int) : GoVal
  | boolean (b : Bool) : GoVal
  | other (tag : Nat) : GoVal
deriving DecidableEq

/-- A Go `map[string]interface` modelled as an association list. -/
abbrev KVMap := List (String × GoVal)

/-- The redaction marker written by `filterByKey` (`filter.go`). -/
def filteredMarker : String := "[Filtered]"

/-- The part of the gobrake `Notice` mutated by the filters under
verification: the three key-value maps. -/
structure Notice where
  Context : KVMap
  Env : KVMap
  Session : KVMap
deriving DecidableEq

/-- The static notifier options consulted by `remote_config.go` and
`filter.go`. -/
structure NotifierOptions where
  ProjectId : Int
  Environment : String
  Revision : String
  Host : String
  APMHost : String
  RemoteConfigBaseURL : String
  DisableErrorNotifications : Bool
  DisableAPM : Bool
deriving DecidableEq

/-- Go map assignment `m[k] = v` on the association-list model:
replace the value at an existing key, or append the binding. -/
def mapSet (m : KVMap) (k : String) (v : GoVal) : KVMap :=
  if m.any (fun p => p.fst == k) then
    m.map (fun p => if p.fst == k then (p.fst, v) else p)
  else
    m ++ [(k, v)]

/-- `newNotifierFilter` (`filter.go`): the returned filter applied to a
notice; sets `Context["environment"]` when the static environment is
non-empty, then `Context["revision"]` when the static revision is
non-empty. -/
def newNotifierFilter (opt : NotifierOptions) (notice : Notice) : Notice :=
  Notice.mk
    (let ctx1 :=
      if opt.Environment ≠ "" then
        mapSet notice.Context "environment" (GoVal.str opt.Environment)
      else notice.Context
    if opt.Revision ≠ "" then
      mapSet ctx1 "revision" (GoVal.str opt.Revision)
    else ctx1)
    notice.Env notice.Session

/-- Go runtime panics reachable in the embedded code. -/
inductive GoPanic where
  | nilPointerDereference : GoPanic
  | closeOfClosedChannel : GoPanic
  | nonPositiveTickerInterval : GoPanic
  | unsupportedBlacklistKeyType : GoPanic
deriving DecidableEq

/-- A key given to `NewBlacklistKeysFilter`: an exact string, a compiled
regular expression (modelled by its `MatchString` test), or a value of
any other dynamic type. -/
inductive BlacklistKey where
  | str (s : String) : BlacklistKey
  | regex (matchString : String → Bool) : BlacklistKey
  | other (tag : Nat) : BlacklistKey

/-- `filterByKey` (`filter.go`): replace the value at every map key
equal to an exact string key, or matched by a regular-expression key,
with the marker; any other key type panics. -/
def filterByKey (values : KVMap) (key : BlacklistKey) : Except GoPanic KVMap :=
  match key with
  | .str s =>
      .ok (values.map (fun p => if p.fst == s then (p.fst, GoVal.str filteredMarker) else p))
  | .regex m =>
      .ok (values.map (fun p => if m p.fst then (p.fst, GoVal.str filteredMarker) else p))
  | .other _ => .error GoPanic.unsupportedBlacklistKeyType

/-- One iteration of the key loop inside the filter returned by
`NewBlacklistKeysFilter`: redact one key in `Env`, `Context` and
`Session`, in that order, propagating a panic. -/
def blacklistStep (notice : Notice) (key : BlacklistKey) : Except GoPanic Notice := do
  let env ← filterByKey notice.Env key
  let ctx ← filterByKey notice.Context key
  let ses ← filterByKey notice.Session key
  pure (Notice.mk ctx env ses)

/-- `NewBlacklistKeysFilter` (`filter.go`): the returned filter applied
to a notice, iterating over all keys. -/
def NewBlacklistKeysFilter (keys : List BlacklistKey) (notice : Notice) : Except GoPanic Notice :=
  keys.foldlM blacklistStep notice

/-- API version constant `apiVer` of `remote_config.go`. -/
def apiVer : String := "2020-06-18"

/-- Default base URL constant of `remote_config.go`. -/
def defaultBaseURL : String := "https://v1-staging-notifier-configs.s3.amazonaws.com"

/-- `defaultInterval = 10 * time.Minute`, in nanoseconds (the unit of
Go `time.Duration`). -/
def defaultInterval : Int := 600 * 1000000000

/-- Reduce an unbounded integer to the `int64` two's-complement value a
Go computation would produce. -/
def int64Wrap (n : Int) : Int := (n + 2 ^ 63) % 2 ^ 64 - 2 ^ 63

/-- One entry of the `settings` array of the remote configuration. -/
structure RemoteSettings where
  Name : String
  Enabled : Bool
  Endpoint : String
deriving DecidableEq

/-- The remote configuration snapshot `RemoteConfigJSON`. The
`RemoteSettingsList` field embeds the Go field `RemoteSettings`
(renamed to avoid clashing with the entry type). -/
structure RemoteConfigJSON where
  ProjectId : Int
  UpdatedAt : Int
  PollSec : Int
  ConfigRoute : String
  RemoteSettingsList : List RemoteSettings
deriving DecidableEq

/-- `Interval` (`remote_config.go`): `PollSec` seconds when strictly
positive, else the default; the Go multiplication
`time.Duration(PollSec) * time.Second` is an `int64` multiplication and
wraps. The result is in nanoseconds. -/
def IntervalJSON (j : RemoteConfigJSON) : Int :=
  if 0 < j.PollSec then int64Wrap (j.PollSec * 1000000000) else defaultInterval

/-- `ConfigRoute` (`remote_config.go`):
`fmt.Sprintf("%s/%s/config/%d/config.json", base, apiVer, projectId)`
with `base` the snapshot route override when non-empty, else the
configured base URL. No separator normalization is performed by the
source. -/
def ConfigRoute (j : RemoteConfigJSON) (baseURL : String) (projectId : Int) : String :=
  if j.ConfigRoute ≠ "" then
    j.ConfigRoute ++ "/" ++ apiVer ++ "/config/" ++ toString projectId ++ "/config.json"
  else
    baseURL ++ "/" ++ apiVer ++ "/config/" ++ toString projectId ++ "/config.json"

/-- `ErrorHost` (`remote_config.go`). In the source the loop body is an
`if`/`else` in which both branches return, so at most the first element
of the settings list is ever examined; the empty list falls through to
the default host. -/
def ErrorHost (j : RemoteConfigJSON) (opt : NotifierOptions) : String :=
  match j.RemoteSettingsList with
  | [] => opt.Host
  | s :: _ => if s.Name == "errors" && s.Endpoint != "" then s.Endpoint else opt.Host

/-- `APMHost` (`remote_config.go`); same first-element-only structure as
`ErrorHost`. -/
def APMHost (j : RemoteConfigJSON) (opt : NotifierOptions) : String :=
  match j.RemoteSettingsList with
  | [] => opt.APMHost
  | s :: _ => if s.Name == "apm" && s.Endpoint != "" then s.Endpoint else opt.APMHost

/-- The state of a `time.Ticker`: the interval it was created with and
whether `Stop` has been called. -/
structure TickerState where
  interval : Int
  stopped : Bool
deriving DecidableEq

/-- The state of the `poller` struct: its ticker and whether the
`closer` channel has been closed. -/
structure PollerState where
  ticker : TickerState
  closerClosed : Bool
deriving DecidableEq

/-- `newPoller` (`remote_config.go`): `time.NewTicker` panics when the
interval is not strictly positive. -/
def newPoller (interval : Int) : Except GoPanic PollerState :=
  if interval ≤ 0 then .error GoPanic.nonPositiveTickerInterval
  else .ok (PollerState.mk (TickerState.mk interval false) false)

/-- `poller.Stop` (`remote_config.go`): stop the ticker and close the
`closer` channel. Go's `close` panics on an already closed channel. -/
def pollerStop (p : PollerState) : Except GoPanic PollerState :=
  if p.closerClosed then .error GoPanic.closeOfClosedChannel
  else .ok (PollerState.mk (TickerState.mk p.ticker.interval true) true)

/-- The mutable state of the `remoteConfig` struct: options, resolved
base URL, the `JSON` snapshot pointer (`none` models a nil pointer) and
the `poller` pointer. -/
structure RCState where
  opt : NotifierOptions
  baseURL : String
  JSON : Option RemoteConfigJSON
  poller : Option PollerState
deriving DecidableEq

/-- `newRemoteConfig` followed by `init` (`remote_config.go`): a
non-nil zero-valued snapshot, no poller, and the base URL defaulted
when the option is empty. -/
def newRemoteConfig (opt : NotifierOptions) : RCState :=
  RCState.mk opt
    (if opt.RemoteConfigBaseURL = "" then defaultBaseURL else opt.RemoteConfigBaseURL)
    (some (RemoteConfigJSON.mk 0 0 0 "" []))
    none

/-- `rc.Interval()` at the struct level: dereferences the `JSON`
pointer. -/
def rcInterval (st : RCState) : Except GoPanic Int :=
  match st.JSON with
  | none => .error GoPanic.nilPointerDereference
  | some j => .ok (IntervalJSON j)

/-- An HTTP response as observed by `fetchConfig`: the status code and
the body read by `ioutil.ReadAll`. -/
structure HttpResp where
  status : Nat
  body : String
deriving DecidableEq

/-- The errors `fetchConfig` can return: a transport error from
`http.Get`, the XML rejection error built from the body, or a JSON
decoding error. `message` is Go's `err.Error()`. -/
inductive FetchErr where
  | transport (msg : String) : FetchErr
  | xmlRejection (body : String) : FetchErr
  | parseFailure (msg : String) : FetchErr
deriving DecidableEq

/-- The `Error()` string of a `FetchErr`. -/
def FetchErr.message : FetchErr → String
  | .transport m => m
  | .xmlRejection b => b
  | .parseFailure m => m

/-- The interface of `json.Unmarshal` into a `*RemoteConfigJSON`:
either a decoding error, or a pointer value (`none` is a nil pointer,
produced by the JSON literal `null`). -/
abbrev JSONDecoder := String → Except String (Option RemoteConfigJSON)

/-- Model of Go `strings.HasPrefix(s, pre)`, via structural list
recursion so that the kernel can evaluate it. -/
def goHasPrefix (s pre : String) : Bool := pre.toList.isPrefixOf s.toList

/-- `fetchConfig` (`remote_config.go`), parameterized by the outcome of
`http.Get` and by the JSON decoder. The status code of the response is
never consulted by the source: only the body is examined. On every
error path the currently stored snapshot pointer is returned alongside
the error; on success the freshly decoded pointer is returned. -/
def fetchConfig (decode : JSONDecoder) (storedJSON : Option RemoteConfigJSON)
    (resp : Except String HttpResp) : Option RemoteConfigJSON × Option FetchErr :=
  match resp with
  | .error msg => (storedJSON, some (FetchErr.transport msg))
  | .ok r =>
    if goHasPrefix r.body "<?xml " then (storedJSON, some (FetchErr.xmlRejection r.body))
    else
      match decode r.body with
      | .error msg => (storedJSON, some (FetchErr.parseFailure msg))
      | .ok j => (j, none)

/-- Externally visible effects of `UpdateConfig`, in order. -/
inductive Ev where
  | stopTicker : Ev
  | newTicker (interval : Int) : Ev
  | callback (st : RCState) : Ev
deriving DecidableEq

/-- `UpdateConfig` (`remote_config.go`): fetch; on error return it with
the state untouched; on success stop the ticker (nil poller panics),
store the snapshot, create a new ticker from the new `Interval()` (nil
snapshot or non-positive interval panics), and invoke the callback with
the updated store. -/
def UpdateConfig (decode : JSONDecoder) (st : RCState) (resp : Except String HttpResp) :
    Except GoPanic (RCState × List Ev × Option FetchErr) :=
  match fetchConfig decode st.JSON resp with
  | (_, some e) => .ok (st, [], some e)
  | (cfg, none) =>
    match st.poller with
    | none => .error GoPanic.nilPointerDereference
    | some p =>
      match cfg with
      | none => .error GoPanic.nilPointerDereference
      | some j =>
        if IntervalJSON j ≤ 0 then .error GoPanic.nonPositiveTickerInterval
        else
          .ok (RCState.mk st.opt st.baseURL (some j)
                 (some (PollerState.mk (TickerState.mk (IntervalJSON j) false) p.closerClosed)),
               [Ev.stopTicker, Ev.newTicker (IntervalJSON j),
                Ev.callback (RCState.mk st.opt st.baseURL (some j)
                  (some (PollerState.mk (TickerState.mk (IntervalJSON j) false) p.closerClosed)))],
               none)

/-- One wake-up of the background loop `poll` (`remote_config.go`):
either the closer fired (return, loop exits) or the ticker fired
(run `UpdateConfig`; on error log `fetchConfig failed: ...` and
continue). The boolean is true when the loop keeps running. -/
inductive PollEvent where
  | closerDone : PollEvent
  | tick (resp : Except String HttpResp) : PollEvent

/-- The body of the `select` inside `poll`. -/
def pollStep (decode : JSONDecoder) (st : RCState) (ev : PollEvent) :
    Except GoPanic (RCState × List Ev × List String × Bool) :=
  match ev with
  | .closerDone => .ok (st, [], [], false)
  | .tick resp =>
    match UpdateConfig decode st resp with
    | .error gp => .error gp
    | .ok (st1, evs, some e) =>
        .ok (st1, evs, ["fetchConfig failed: " ++ e.message], true)
    | .ok (st1, evs, none) => .ok (st1, evs, [], true)

/-- `Poll` (`remote_config.go`): create the poller from the current
interval, run one synchronous `UpdateConfig`, logging a failure, then
hand over to the background loop. -/
def Poll (decode : JSONDecoder) (st : RCState) (resp : Except String HttpResp) :
    Except GoPanic (RCState × List Ev × List String) :=
  match rcInterval st with
  | .error gp => .error gp
  | .ok d =>
    match newPoller d with
    | .error gp => .error gp
    | .ok p =>
      let st1 := RCState.mk st.opt st.baseURL st.JSON (some p)
      match UpdateConfig decode st1 resp with
      | .error gp => .error gp
      | .ok (st2, evs, some e) =>
          .ok (st2, evs, ["fetchConfig failed: " ++ e.message])
      | .ok (st2, evs, none) => .ok (st2, evs, [])

/-- `StopPolling` (`remote_config.go`): `rc.poller.Stop()`; a nil
poller dereference panics. -/
def StopPolling (st : RCState) : Except GoPanic RCState :=
  match st.poller with
  | none => .error GoPanic.nilPointerDereference
  | some p =>
    match pollerStop p with
    | .error gp => .error gp
    | .ok p1 => .ok (RCState.mk st.opt st.baseURL st.JSON (some p1))

/-- One transition of the remote-configuration component: a `Poll`
call, a direct `UpdateConfig`, one loop wake-up, or a `StopPolling`,
each completing without a panic. -/
inductive RCStep (decode : JSONDecoder) : RCState → RCState → Prop where
  | poll (st st1 : RCState) (resp : Except String HttpResp) (evs : List Ev)
      (logs : List String) (h : Poll decode st resp = .ok (st1, evs, logs)) :
      RCStep decode st st1
  | update (st st1 : RCState) (resp : Except String HttpResp) (evs : List Ev)
      (e : Option FetchErr) (h : UpdateConfig decode st resp = .ok (st1, evs, e)) :
      RCStep decode st st1
  | loop (st st1 : RCState) (ev : PollEvent) (evs : List Ev) (logs : List String)
      (c : Bool) (h : pollStep decode st ev = .ok (st1, evs, logs, c)) :
      RCStep decode st st1
  | stop (st st1 : RCState) (h : StopPolling st = .ok st1) : RCStep decode st st1

/-- States of the remote-configuration component reachable from
construction. -/
def Reachable (decode : JSONDecoder) (opt : NotifierOptions) (st : RCState) : Prop :=
  Relation.ReflTransGen (RCStep decode) (newRemoteConfig opt) st

/-- JSON whitespace. -/
def jsonWs (c : Char) : Bool :=
  c == Char.ofNat 32 || c == Char.ofNat 9 || c == Char.ofNat 10 || c == Char.ofNat 13

/-- Drop leading JSON whitespace. -/
def skipWs : List Char → List Char
  | [] => []
  | c :: cs => if jsonWs c then skipWs cs else c :: cs

/-- A parsed JSON value. -/
inductive JVal where
  | null : JVal
  | boolean (b : Bool) : JVal
  | num (n : Int) : JVal
  | str (s : String) : JVal
  | arr (elems : List JVal) : JVal
  | obj (fields : List (String × JVal)) : JVal

/-- Read the body of a JSON string up to the closing quote. String
escapes are outside the modelled fragment. -/
def parseStringChars : List Char → String → Except String (String × List Char)
  | [], _ => .error "unexpected end of JSON input"
  | c :: cs, acc =>
    if c == Char.ofNat 34 then .ok (acc, cs)
    else if c == Char.ofNat 92 then
      .error "string escapes are outside the modelled JSON fragment"
    else parseStringChars cs (acc.push c)

/-- Consume an expected literal tail. -/
def expectChars : List Char → List Char → Except String (List Char)
  | [], cs => .ok cs
  | _ :: _, [] => .error "unexpected end of JSON input"
  | e :: es, c :: cs =>
    if c == e then expectChars es cs else .error "invalid character in literal"

/-- Accumulate decimal digits. -/
def parseDigits : List Char → Nat → Nat × List Char
  | [], acc => (acc, [])
  | c :: cs, acc =>
    if c.isDigit then parseDigits cs (acc * 10 + (c.toNat - 48)) else (acc, c :: cs)

/-- Reject fraction/exponent tails: only integer JSON numbers are in
the modelled fragment. -/
def numTailOK : List Char → Bool
  | [] => true
  | c :: _ => !(c == Char.ofNat 46 || c == 'e' || c == 'E')

/-- Parse an integer JSON number. -/
def parseNumber (cs : List Char) : Except String (Int × List Char) :=
  match cs with
  | [] => .error "unexpected end of JSON input"
  | c :: rest =>
    if c == Char.ofNat 45 then
      match rest with
      | [] => .error "unexpected end of JSON input"
      | d :: _ =>
        if d.isDigit then
          match parseDigits rest 0 with
          | (n, tail) =>
            if numTailOK tail then .ok (-(Int.ofNat n), tail)
            else .error "non-integer numbers are outside the modelled JSON fragment"
        else .error "invalid character in number"
    else if c.isDigit then
      match parseDigits cs 0 with
      | (n, tail) =>
        if numTailOK tail then .ok (Int.ofNat n, tail)
        else .error "non-integer numbers are outside the modelled JSON fragment"
    else .error "invalid character"

mutual

/-- Parse one JSON value (fuelled recursion). -/
def parseJVal : Nat → List Char → Except String (JVal × List Char)
  | 0, _ => .error "modelled JSON parser ran out of fuel"
  | fuel + 1, cs =>
    match skipWs cs with
    | [] => .error "unexpected end of JSON input"
    | c :: rest =>
      if c == Char.ofNat 123 then
        match parseObjFields fuel rest with
        | .error e => .error e
        | .ok (fs, cs1) => .ok (JVal.obj fs, cs1)
      else if c == Char.ofNat 91 then
        match parseArrElems fuel rest with
        | .error e => .error e
        | .ok (xs, cs1) => .ok (JVal.arr xs, cs1)
      else if c == Char.ofNat 34 then
        match parseStringChars rest "" with
        | .error e => .error e
        | .ok (s, cs1) => .ok (JVal.str s, cs1)
      else if c == 'n' then
        match expectChars ['u', 'l', 'l'] rest with
        | .error e => .error e
        | .ok cs1 => .ok (JVal.null, cs1)
      else if c == 't' then
        match expectChars ['r', 'u', 'e'] rest with
        | .error e => .error e
        | .ok cs1 => .ok (JVal.boolean true, cs1)
      else if c == 'f' then
        match expectChars ['a', 'l', 's', 'e'] rest with
        | .error e => .error e
        | .ok cs1 => .ok (JVal.boolean false, cs1)
      else
        match parseNumber (c :: rest) with
        | .error e => .error e
        | .ok (n, cs1) => .ok (JVal.num n, cs1)

/-- Parse array elements after the opening bracket. -/
def parseArrElems : Nat → List Char → Except String (List JVal × List Char)
  | 0, _ => .error "modelled JSON parser ran out of fuel"
  | fuel + 1, cs =>
    match skipWs cs with
    | [] => .error "unexpected end of JSON input"
    | c :: rest =>
      if c == Char.ofNat 93 then .ok ([], rest)
      else
        match parseJVal fuel (c :: rest) with
        | .error e => .error e
        | .ok (v, cs1) =>
          match skipWs cs1 with
          | [] => .error "unexpected end of JSON input"
          | c2 :: cs2 =>
            if c2 == Char.ofNat 44 then
              match parseArrElems fuel cs2 with
              | .error e => .error e
              | .ok (xs, cs3) => .ok (v :: xs, cs3)
            else if c2 == Char.ofNat 93 then .ok ([v], cs2)
            else .error "invalid character in array"

/-- Parse object fields after the opening brace. -/
def parseObjFields : Nat → List Char → Except String (List (String × JVal) × List Char)
  | 0, _ => .error "modelled JSON parser ran out of fuel"
  | fuel + 1, cs =>
    match skipWs cs with
    | [] => .error "unexpected end of JSON input"
    | c :: rest =>
      if c == Char.ofNat 125 then .ok ([], rest)
      else if c == Char.ofNat 34 then
        match parseStringChars rest "" with
        | .error e => .error e
        | .ok (k, cs1) =>
          match skipWs cs1 with
          | [] => .error "unexpected end of JSON input"
          | c2 :: cs2 =>
            if c2 == Char.ofNat 58 then
              match parseJVal fuel cs2 with
              | .error e => .error e
              | .ok (v, cs3) =>
                match skipWs cs3 with
                | [] => .error "unexpected end of JSON input"
                | c3 :: cs4 =>
                  if c3 == Char.ofNat 44 then
                    match parseObjFields fuel cs4 with
                    | .error e => .error e
                    | .ok (fs, cs5) => .ok ((k, v) :: fs, cs5)
                  else if c3 == Char.ofNat 125 then .ok ([(k, v)], cs4)
                  else .error "invalid character in object"
            else .error "invalid character after object key"
      else .error "invalid character in object"

end

/-- Parse a whole body as one JSON value with nothing trailing. -/
def jsonUnmarshalTop (s : String) : Except String JVal :=
  match parseJVal (2 * s.length + 16) s.toList with
  | .error e => .error e
  | .ok (v, rest) =>
    if (skipWs rest).isEmpty then .ok v
    else .error "invalid character after top-level value"

/-- Decode a JSON value into an `int64` field; `none` means the value
was the literal `null`, which `encoding/json` skips, leaving the field
untouched. -/
def asInt64 (v : JVal) : Except String (Option Int) :=
  match v with
  | .null => .ok none
  | .num n =>
    if n < -(2 ^ 63) || 2 ^ 63 ≤ n then .error "number overflows int64"
    else .ok (some n)
  | _ => .error "cannot unmarshal value into an int64 field"

/-- Decode a JSON value into a string field (`null` skips). -/
def asStringVal (v : JVal) : Except String (Option String) :=
  match v with
  | .null => .ok none
  | .str s => .ok (some s)
  | _ => .error "cannot unmarshal value into a string field"

/-- Decode a JSON value into a bool field (`null` skips). -/
def asBoolVal (v : JVal) : Except String (Option Bool) :=
  match v with
  | .null => .ok none
  | .boolean b => .ok (some b)
  | _ => .error "cannot unmarshal value into a bool field"

/-- Apply one decoded object field to a `RemoteSettings` entry, the way
`encoding/json` fills the tagged struct fields; unknown fields are
ignored. -/
def applySettingField (s : RemoteSettings) (kv : String × JVal) : Except String RemoteSettings :=
  if kv.fst == "name" then
    match asStringVal kv.snd with
    | .error e => .error e
    | .ok none => .ok s
    | .ok (some x) => .ok (RemoteSettings.mk x s.Enabled s.Endpoint)
  else if kv.fst == "enabled" then
    match asBoolVal kv.snd with
    | .error e => .error e
    | .ok none => .ok s
    | .ok (some b) => .ok (RemoteSettings.mk s.Name b s.Endpoint)
  else if kv.fst == "endpoint" then
    match asStringVal kv.snd with
    | .error e => .error e
    | .ok none => .ok s
    | .ok (some x) => .ok (RemoteSettings.mk s.Name s.Enabled x)
  else .ok s

/-- Decode one element of the `settings` array. A `null` element (a nil
`*RemoteSettings`) is outside the modelled fragment. -/
def decodeSetting (v : JVal) : Except String RemoteSettings :=
  match v with
  | .obj fs => fs.foldlM applySettingField (RemoteSettings.mk "" false "")
  | _ => .error "unsupported settings entry in the modelled JSON fragment"

/-- Apply one decoded object field to a `RemoteConfigJSON`, following
the `json:"..."` tags of `remote_config.go`; unknown fields are
ignored, `null` values leave the field untouched. -/
def applyConfigField (j : RemoteConfigJSON) (kv : String × JVal) : Except String RemoteConfigJSON :=
  if kv.fst == "project_id" then
    match asInt64 kv.snd with
    | .error e => .error e
    | .ok none => .ok j
    | .ok (some n) =>
        .ok (RemoteConfigJSON.mk n j.UpdatedAt j.PollSec j.ConfigRoute j.RemoteSettingsList)
  else if kv.fst == "updated_at" then
    match asInt64 kv.snd with
    | .error e => .error e
    | .ok none => .ok j
    | .ok (some n) =>
        .ok (RemoteConfigJSON.mk j.ProjectId n j.PollSec j.ConfigRoute j.RemoteSettingsList)
  else if kv.fst == "poll_sec" then
    match asInt64 kv.snd with
    | .error e => .error e
    | .ok none => .ok j
    | .ok (some n) =>
        .ok (RemoteConfigJSON.mk j.ProjectId j.UpdatedAt n j.ConfigRoute j.RemoteSettingsList)
  else if kv.fst == "config_route" then
    match asStringVal kv.snd with
    | .error e => .error e
    | .ok none => .ok j
    | .ok (some s) =>
        .ok (RemoteConfigJSON.mk j.ProjectId j.UpdatedAt j.PollSec s j.RemoteSettingsList)
  else if kv.fst == "settings" then
    match kv.snd with
    | JVal.null => .ok j
    | JVal.arr elems =>
      match elems.mapM decodeSetting with
      | .error e => .error e
      | .ok l =>
          .ok (RemoteConfigJSON.mk j.ProjectId j.UpdatedAt j.PollSec j.ConfigRoute l)
    | _ => .error "cannot unmarshal value into the settings field"
  else .ok j

/-- A concrete, executable model of `json.Unmarshal(body, &j)` for
`j : *RemoteConfigJSON`, restricted to the JSON fragment described in
the header. The JSON literal `null` decodes, without error, into a nil
pointer, exactly as `encoding/json` documents for pointer targets. -/
def jsonUnmarshalConfig : JSONDecoder := fun s =>
  match jsonUnmarshalTop s with
  | .error e => .error e
  | .ok JVal.null => .ok none
  | .ok (JVal.obj fs) =>
    match fs.foldlM applyConfigField (RemoteConfigJSON.mk 0 0 0 "" []) with
    | .error e => .error e
    | .ok j => .ok (some j)
  | .ok _ => .error "cannot unmarshal value into RemoteConfigJSON"

/-- Zero-valued snapshot, as held right after `newRemoteConfig`. -/
def zeroConfig : RemoteConfigJSON := RemoteConfigJSON.mk 0 0 0 "" []

/-- Concrete options used by witnesses and counterexamples. -/
def demoOpts : NotifierOptions :=
  NotifierOptions.mk 1 "" "" "https://api.example.com" "https://apm.example.com" "" false false

/-- A remote-config state with a running poller, as after a first
successful `Poll`. -/
def armedState : RCState :=
  RCState.mk demoOpts defaultBaseURL (some zeroConfig)
    (some (PollerState.mk (TickerState.mk defaultInterval false) false))

/-- `armedState` after one successful `StopPolling`. -/
def stoppedState : RCState :=
  RCState.mk demoOpts defaultBaseURL (some zeroConfig)
    (some (PollerState.mk (TickerState.mk defaultInterval true) true))

/-- A snapshot whose settings list holds the `errors` entry in second
position, behind a non-matching first entry. -/
def demoSettingsConfig : RemoteConfigJSON :=
  RemoteConfigJSON.mk 0 0 0 ""
    [RemoteSettings.mk "apm" true "", RemoteSettings.mk "errors" true "https://errors.example.org"]

/-- The state `armedState` would reach after fetching `poll_sec = 1`. -/
def pollSec1State : RCState :=
  RCState.mk demoOpts defaultBaseURL (some (RemoteConfigJSON.mk 0 0 1 "" []))
    (some (PollerState.mk (TickerState.mk 1000000000 false) false))

/-- The output map redacts exactly the keys matched by `p`: the value
looked up at every matching key is the marker, the value at every other
key is unchanged. -/
def RedactedBy (p : String → Bool) (m mOut : KVMap) : Prop :=
  ∀ k : String,
    mOut.lookup k = (m.lookup k).map (fun v => if p k then GoVal.str filteredMarker else v)

/-- The notice of the redaction example. -/
def demoNotice : Notice :=
  Notice.mk [("password", GoVal.str "x"), ("other", GoVal.str "y")] [] []

/-- `demoNotice` with the password redacted. -/
def demoRedactedNotice : Notice :=
  Notice.mk [("password", GoVal.str filteredMarker), ("other", GoVal.str "y")] [] []

/-- Model of Go `strings.HasSuffix` / the regular expression "_token$",
via structural list recursion. -/
def goHasSuffix (s suf : String) : Bool := suf.toList.isSuffixOf s.toList

/-- A notice with two token-suffixed keys in its `Env` map. -/
def tokenNotice : Notice :=
  Notice.mk [] [("api_token", GoVal.str "a"), ("user", GoVal.str "u"),
    ("auth_token", GoVal.str "b")] []

/-- `tokenNotice` with both token keys redacted. -/
def tokenRedactedNotice : Notice :=
  Notice.mk [] [("api_token", GoVal.str filteredMarker), ("user", GoVal.str "u"),
    ("auth_token", GoVal.str filteredMarker)] []

/-- Helper: on every error path, `fetchConfig` hands back the stored
snapshot pointer unchanged. -/
theorem fetchConfig_error_fst (decode : JSONDecoder) (stored : Option RemoteConfigJSON)
    (resp : Except String HttpResp) (e : FetchErr)
    (h : (fetchConfig decode stored resp).snd = some e) :
    (fetchConfig decode stored resp).fst = stored := by
  unfold fetchConfig at *
  rcases resp with msg | r
  · rfl
  · by_cases hx : goHasPrefix r.body "<?xml "
    · simp [hx]
    · simp only [hx, if_false, Bool.false_eq_true, ite_false] at h ⊢
      rcases hd : decode r.body with msg | jv
      · simp [hd]
      · rw [hd] at h
        simp at h

/-- Helper: when the fetch fails, `UpdateConfig` returns the error with
the state untouched, no events and no callback. -/
theorem UpdateConfig_fetch_error (decode : JSONDecoder) (st : RCState)
    (resp : Except String HttpResp) (e : FetchErr)
    (h : (fetchConfig decode st.JSON resp).snd = some e) :
    UpdateConfig decode st resp = .ok (st, [], some e) := by
  unfold UpdateConfig
  rcases hf : fetchConfig decode st.JSON resp with ⟨cfg, e2⟩
  rw [hf] at h
  simp only at h
  subst h
  rfl

/-- Helper: a non-panicking `UpdateConfig` either leaves the state
untouched or installs a non-nil snapshot. -/
theorem UpdateConfig_ok_cases (decode : JSONDecoder) (st : RCState)
    (resp : Except String HttpResp) (st1 : RCState) (evs : List Ev) (e : Option FetchErr)
    (h : UpdateConfig decode st resp = .ok (st1, evs, e)) :
    st1 = st ∨ st1.JSON.isSome = true := by
  unfold UpdateConfig at h
  rcases hf : fetchConfig decode st.JSON resp with ⟨cfg, e2⟩
  rw [hf] at h
  rcases e2 with _ | e3
  · rcases hp : st.poller with _ | p
    · rw [hp] at h
      simp at h
    · rw [hp] at h
      rcases cfg with _ | j
      · simp at h
      · simp only at h
        by_cases hd : IntervalJSON j ≤ 0
        · rw [if_pos hd] at h
          simp at h
        · rw [if_neg hd] at h
          simp only [Except.ok.injEq, Prod.mk.injEq] at h
          right
          rw [← h.1]
          rfl
  · simp only [Except.ok.injEq, Prod.mk.injEq] at h
    left
    exact h.1.symm

/-- Helper: every non-panicking transition preserves the invariant that
the stored snapshot pointer is non-nil. -/
theorem RCStep_preserves_JSON (decode : JSONDecoder) (st st1 : RCState)
    (h : RCStep decode st st1) (hj : st.JSON.isSome = true) : st1.JSON.isSome = true := by
  cases h with
  | poll resp evs logs h =>
    unfold Poll at h
    split at h
    · simp at h
    · split at h
      · simp at h
      · dsimp only at h
        split at h
        · simp at h
        · rename_i st2 evs2 e2 hu
          simp only [Except.ok.injEq, Prod.mk.injEq] at h
          rcases UpdateConfig_ok_cases decode _ resp st2 evs2 (some e2) hu with h2 | h2
          · rw [← h.1, h2]
            exact hj
          · rw [← h.1]
            exact h2
        · rename_i st2 evs2 hu
          simp only [Except.ok.injEq, Prod.mk.injEq] at h
          rcases UpdateConfig_ok_cases decode _ resp st2 evs2 none hu with h2 | h2
          · rw [← h.1, h2]
            exact hj
          · rw [← h.1]
            exact h2
  | update resp evs e h =>
    rcases UpdateConfig_ok_cases decode st resp st1 evs e h with h2 | h2
    · rw [h2]
      exact hj
    · exact h2
  | loop ev evs logs c h =>
    rcases ev with _ | resp
    · unfold pollStep at h
      simp only [Except.ok.injEq, Prod.mk.injEq] at h
      rw [← h.1]
      exact hj
    · unfold pollStep at h
      dsimp only at h
      split at h
      · simp at h
      · rename_i st2 evs2 e2 hu
        simp only [Except.ok.injEq, Prod.mk.injEq] at h
        rcases UpdateConfig_ok_cases decode st resp st2 evs2 (some e2) hu with h2 | h2
        · rw [← h.1, h2]
          exact hj
        · rw [← h.1]
          exact h2
      · rename_i st2 evs2 hu
        simp only [Except.ok.injEq, Prod.mk.injEq] at h
        rcases UpdateConfig_ok_cases decode st resp st2 evs2 none hu with h2 | h2
        · rw [← h.1, h2]
          exact hj
        · rw [← h.1]
          exact h2
  | stop h =>
    unfold StopPolling at h
    split at h
    · simp at h
    · split at h
      · simp at h
      · simp only [Except.ok.injEq] at h
        rw [← h]
        exact hj

/-- Helper: every reachable state holds a non-nil snapshot pointer. -/
theorem Reachable_JSON_isSome (decode : JSONDecoder) (opt : NotifierOptions) (st : RCState)
    (h : Reachable decode opt st) : st.JSON.isSome = true := by
  induction h with
  | refl => rfl
  | tail h1 h2 ih => exact RCStep_preserves_JSON decode _ _ h2 ih

/-- C1 (counterexample): the `errors` entry is present in the settings
list, with a non-empty endpoint, yet `ErrorHost` returns the static
default host, because the loop in the source returns on the very first
entry. The symmetric failure holds for `APMHost`. -/
theorem C1_counterexample :
    RemoteSettings.mk "errors" true "https://errors.example.org"
        ∈ demoSettingsConfig.RemoteSettingsList ∧
    (RemoteSettings.mk "errors" true "https://errors.example.org").Endpoint ≠ "" ∧
    ErrorHost demoSettingsConfig demoOpts = "https://api.example.com" ∧
    ErrorHost demoSettingsConfig demoOpts ≠ "https://errors.example.org" := by
  refine ⟨by decide, by decide, rfl, by decide⟩

/-- C1 (amended): the category endpoint-host lookups examine only the
first entry of the settings list: when the first entry is the
category's entry and its endpoint is non-empty, that endpoint is
returned; in every other case (different or endpoint-less first entry,
or empty settings list) the static default host is returned, and
entries beyond the first are never examined. -/
theorem C1_host_first_entry (j : RemoteConfigJSON) (opt : NotifierOptions) :
    (j.RemoteSettingsList = [] → ErrorHost j opt = opt.Host ∧ APMHost j opt = opt.APMHost) ∧
    (∀ s rest, j.RemoteSettingsList = s :: rest →
      ((s.Name = "errors" ∧ s.Endpoint ≠ "") → ErrorHost j opt = s.Endpoint) ∧
      (¬(s.Name = "errors" ∧ s.Endpoint ≠ "") → ErrorHost j opt = opt.Host) ∧
      ((s.Name = "apm" ∧ s.Endpoint ≠ "") → APMHost j opt = s.Endpoint) ∧
      (¬(s.Name = "apm" ∧ s.Endpoint ≠ "") → APMHost j opt = opt.APMHost)) := by
  constructor
  · intro h
    unfold ErrorHost APMHost
    rw [h]
    exact ⟨rfl, rfl⟩
  · intro s rest h
    unfold ErrorHost APMHost
    rw [h]
    dsimp only
    refine ⟨fun hc => ?_, fun hc => ?_, fun hc => ?_, fun hc => ?_⟩
    · have hb : (s.Name == "errors" && s.Endpoint != "") = true := by
        simp [hc.1, hc.2]
      rw [if_pos hb]
    · have hb : (s.Name == "errors" && s.Endpoint != "") = false := by
        by_cases h1 : s.Name = "errors"
        · have h2 : s.Endpoint = "" := by
            by_contra h3
            exact hc ⟨h1, h3⟩
          simp [h2]
        · simp [h1]
      rw [hb]
      simp
    · have hb : (s.Name == "apm" && s.Endpoint != "") = true := by
        simp [hc.1, hc.2]
      rw [if_pos hb]
    · have hb : (s.Name == "apm" && s.Endpoint != "") = false := by
        by_cases h1 : s.Name = "apm"
        · have h2 : s.Endpoint = "" := by
            by_contra h3
            exact hc ⟨h1, h3⟩
          simp [h2]
        · simp [h1]
      rw [hb]
      simp

/-- C1 witness: the amended lookup rule evaluated at concrete
single-entry snapshots. -/
theorem C1_host_first_entry_witness :
    ErrorHost (RemoteConfigJSON.mk 0 0 0 "" [RemoteSettings.mk "errors" true "https://e.example.org"]) demoOpts
      = "https://e.example.org" ∧
    APMHost (RemoteConfigJSON.mk 0 0 0 "" [RemoteSettings.mk "errors" true "https://e.example.org"]) demoOpts
      = demoOpts.APMHost := by
  constructor
  · exact ((C1_host_first_entry
      (RemoteConfigJSON.mk 0 0 0 "" [RemoteSettings.mk "errors" true "https://e.example.org"])
      demoOpts).2 _ [] rfl).1 ⟨rfl, by decide⟩
  · exact ((C1_host_first_entry
      (RemoteConfigJSON.mk 0 0 0 "" [RemoteSettings.mk "errors" true "https://e.example.org"])
      demoOpts).2 _ [] rfl).2.2.2 (by decide)

/-- C2 (counterexample): responses with status 404, 403 and 410 whose
body is valid JSON produce no error at all from `fetchConfig`, although
the claim requires an error carrying the body (404/403) or an
"unhandled status" error (other non-200 codes). -/
theorem C2_counterexample :
    (fetchConfig jsonUnmarshalConfig (some zeroConfig) (.ok (HttpResp.mk 404 "\x7b\x7d"))).snd
      = none ∧
    (fetchConfig jsonUnmarshalConfig (some zeroConfig) (.ok (HttpResp.mk 403 "\x7b\x7d"))).snd
      = none ∧
    (fetchConfig jsonUnmarshalConfig (some zeroConfig) (.ok (HttpResp.mk 410 "\x7b\x7d"))).snd
      = none :=
  ⟨rfl, rfl, rfl⟩

/-- C2 (amended): `fetchConfig` never inspects the HTTP status code;
every response is handled by its body alone: an XML-prefixed body
yields an error carrying the body as its message, a body the decoder
rejects yields that decoding error, and a body that decodes yields
success with no error — identically for 404, 403, 200 and every other
status. -/
theorem C2_status_ignored (decode : JSONDecoder) (stored : Option RemoteConfigJSON)
    (s1 s2 : Nat) (body : String) :
    fetchConfig decode stored (.ok (HttpResp.mk s1 body)) =
      fetchConfig decode stored (.ok (HttpResp.mk s2 body)) ∧
    (goHasPrefix body "<?xml " = true →
      fetchConfig decode stored (.ok (HttpResp.mk s1 body)) =
        (stored, some (FetchErr.xmlRejection body))) ∧
    (goHasPrefix body "<?xml " = false → ∀ msg, decode body = .error msg →
      fetchConfig decode stored (.ok (HttpResp.mk s1 body)) =
        (stored, some (FetchErr.parseFailure msg))) ∧
    (goHasPrefix body "<?xml " = false → ∀ jv, decode body = .ok jv →
      fetchConfig decode stored (.ok (HttpResp.mk s1 body)) = (jv, none)) := by
  refine ⟨rfl, fun h => ?_, fun h msg hd => ?_, fun h jv hd => ?_⟩
  · simp [fetchConfig, h]
  · simp [fetchConfig, h, hd]
  · simp [fetchConfig, h, hd]

/-- C2 witness: the status-blind behaviour evaluated concretely: the
same XML rejection for 404 and 403, and the same parse failure. -/
theorem C2_status_ignored_witness :
    fetchConfig jsonUnmarshalConfig (some zeroConfig) (.ok (HttpResp.mk 404 "<?xml bad")) =
      (some zeroConfig, some (FetchErr.xmlRejection "<?xml bad")) ∧
    fetchConfig jsonUnmarshalConfig (some zeroConfig) (.ok (HttpResp.mk 404 "not found")) =
      fetchConfig jsonUnmarshalConfig (some zeroConfig) (.ok (HttpResp.mk 200 "not found")) :=
  ⟨(C2_status_ignored jsonUnmarshalConfig (some zeroConfig) 404 403 "<?xml bad").2.1 (by decide),
   (C2_status_ignored jsonUnmarshalConfig (some zeroConfig) 404 200 "not found").1⟩

/-- C3 (counterexample): after `Poll` has armed the poller, the first
`StopPolling` succeeds, a second `StopPolling` panics with Go's
close-of-closed-channel panic, and `StopPolling` on a never-polled
state panics with a nil-pointer dereference — not a no-op. -/
theorem C3_counterexample :
    StopPolling armedState = .ok stoppedState ∧
    StopPolling stoppedState = .error GoPanic.closeOfClosedChannel ∧
    StopPolling (newRemoteConfig demoOpts) = .error GoPanic.nilPointerDereference :=
  ⟨rfl, rfl, rfl⟩

/-- C3 (amended): `StopPolling` is safe exactly once after `Poll`: with
a live poller whose closer channel is still open it stops the ticker
and closes the channel; with an already-closed closer it panics
(`close` of a closed channel); with no poller it panics (nil
dereference). -/
theorem C3_stopPolling_single_use (st : RCState) :
    (st.poller = none → StopPolling st = .error GoPanic.nilPointerDereference) ∧
    (∀ p, st.poller = some p → p.closerClosed = false →
      StopPolling st = .ok (RCState.mk st.opt st.baseURL st.JSON
        (some (PollerState.mk (TickerState.mk p.ticker.interval true) true)))) ∧
    (∀ p, st.poller = some p → p.closerClosed = true →
      StopPolling st = .error GoPanic.closeOfClosedChannel) := by
  refine ⟨fun h => ?_, fun p hp hc => ?_, fun p hp hc => ?_⟩
  · unfold StopPolling
    rw [h]
  · unfold StopPolling
    rw [hp]
    simp [pollerStop, hc]
  · unfold StopPolling
    rw [hp]
    simp [pollerStop, hc]

/-- C3 witness: the amended rule evaluated at the armed and stopped
concrete states. -/
theorem C3_stopPolling_single_use_witness :
    StopPolling armedState = .ok (RCState.mk armedState.opt armedState.baseURL armedState.JSON
      (some (PollerState.mk (TickerState.mk defaultInterval true) true))) ∧
    StopPolling stoppedState = .error GoPanic.closeOfClosedChannel ∧
    StopPolling (newRemoteConfig demoOpts) = .error GoPanic.nilPointerDereference :=
  ⟨(C3_stopPolling_single_use armedState).2.1 _ rfl rfl,
   (C3_stopPolling_single_use stoppedState).2.2 _ rfl rfl,
   (C3_stopPolling_single_use (newRemoteConfig demoOpts)).1 rfl⟩

/-- C4: when the fetch fails, `UpdateConfig` returns the error with no
snapshot replacement, no ticker events (so no re-arming) and no
callback invocation, and one wake-up of the polling loop logs exactly
"fetchConfig failed: " followed by the error text, keeps the state (and
hence the previous timer schedule) unchanged, and keeps looping. -/
theorem C4_fetch_failure (decode : JSONDecoder) (st : RCState)
    (resp : Except String HttpResp) (e : FetchErr)
    (h : (fetchConfig decode st.JSON resp).snd = some e) :
    UpdateConfig decode st resp = .ok (st, [], some e) ∧
    pollStep decode st (.tick resp) =
      .ok (st, [], ["fetchConfig failed: " ++ e.message], true) := by
  have hu := UpdateConfig_fetch_error decode st resp e h
  refine ⟨hu, ?_⟩
  unfold pollStep
  dsimp only
  rw [hu]

/-- C4 witness: a concrete transport failure. -/
theorem C4_fetch_failure_witness :
    UpdateConfig jsonUnmarshalConfig armedState (.error "connection refused") =
      .ok (armedState, [], some (FetchErr.transport "connection refused")) ∧
    pollStep jsonUnmarshalConfig armedState (.tick (.error "connection refused")) =
      .ok (armedState, [], ["fetchConfig failed: connection refused"], true) :=
  C4_fetch_failure jsonUnmarshalConfig armedState (.error "connection refused")
    (FetchErr.transport "connection refused") rfl

/-- C5 (counterexample): two successful fetches (no error from
`fetchConfig`) on which `UpdateConfig` panics before ever invoking the
callback: the body `null` decodes to a nil snapshot and the re-arm
dereferences it, and the body with `poll_sec` 9223372037 overflows the
int64 nanosecond conversion into a negative interval so
`time.NewTicker` panics — in both cases after the snapshot was already
replaced, refuting "for every successful fetch ... invokes the
registered callback". -/
theorem C5_counterexample :
    fetchConfig jsonUnmarshalConfig armedState.JSON (.ok (HttpResp.mk 200 "null")) =
      (none, none) ∧
    UpdateConfig jsonUnmarshalConfig armedState (.ok (HttpResp.mk 200 "null")) =
      .error GoPanic.nilPointerDereference ∧
    (fetchConfig jsonUnmarshalConfig armedState.JSON
      (.ok (HttpResp.mk 200 "\x7b\"poll_sec\":9223372037\x7d"))).snd = none ∧
    UpdateConfig jsonUnmarshalConfig armedState
        (.ok (HttpResp.mk 200 "\x7b\"poll_sec\":9223372037\x7d")) =
      .error GoPanic.nonPositiveTickerInterval :=
  ⟨by rfl, by rfl, by rfl, by rfl⟩

/-- C5 (amended): for every successful fetch that yields a non-nil
snapshot whose derived interval is positive, `UpdateConfig` stops the
current ticker, replaces the snapshot wholesale, arms a new ticker with
the interval derived from the new snapshot, then invokes the callback
synchronously with the updated store, in that order, and returns no
error; the subsequent `Interval()` reflects the new snapshot. -/
theorem C5_success_applies (decode : JSONDecoder) (st : RCState) (resp : Except String HttpResp)
    (j : RemoteConfigJSON) (p : PollerState)
    (hf : fetchConfig decode st.JSON resp = (some j, none))
    (hp : st.poller = some p)
    (hd : 0 < IntervalJSON j) :
    UpdateConfig decode st resp = .ok
      (RCState.mk st.opt st.baseURL (some j)
        (some (PollerState.mk (TickerState.mk (IntervalJSON j) false) p.closerClosed)),
       [Ev.stopTicker, Ev.newTicker (IntervalJSON j),
        Ev.callback (RCState.mk st.opt st.baseURL (some j)
          (some (PollerState.mk (TickerState.mk (IntervalJSON j) false) p.closerClosed)))],
       none) ∧
    rcInterval (RCState.mk st.opt st.baseURL (some j)
        (some (PollerState.mk (TickerState.mk (IntervalJSON j) false) p.closerClosed))) =
      .ok (IntervalJSON j) := by
  constructor
  · unfold UpdateConfig
    rw [hf]
    dsimp only
    rw [hp]
    dsimp only
    rw [if_neg (by omega)]
  · rfl

/-- C5 witness: fetching body with `poll_sec` 1 stops the old ticker,
installs the new snapshot, arms a 1-second ticker and fires the
callback with the updated store. -/
theorem C5_success_applies_witness :
    UpdateConfig jsonUnmarshalConfig armedState (.ok (HttpResp.mk 200 "\x7b\"poll_sec\":1\x7d")) =
      .ok (pollSec1State,
        [Ev.stopTicker, Ev.newTicker 1000000000, Ev.callback pollSec1State], none) ∧
    rcInterval pollSec1State = .ok 1000000000 :=
  C5_success_applies jsonUnmarshalConfig armedState (.ok (HttpResp.mk 200 "\x7b\"poll_sec\":1\x7d"))
    (RemoteConfigJSON.mk 0 0 1 "" []) (PollerState.mk (TickerState.mk defaultInterval false) false)
    (by rfl) rfl (by decide)

/-- C6 (counterexample): a base host with a trailing slash yields a
double slash in the configuration route — no normalization is
performed, refuting the normalization clause of the claim. -/
theorem C6_counterexample :
    ConfigRoute zeroConfig "http://example.com/" 1 =
      "http://example.com//2020-06-18/config/1/config.json" ∧
    "http://example.com//2020-06-18/config/1/config.json" ≠
      "http://example.com/2020-06-18/config/1/config.json" :=
  ⟨rfl, by decide⟩

/-- C6 (amended): `ConfigRoute` is literal pattern substitution,
"base/2020-06-18/config/projectId/config.json", using the route
override when non-empty and the base host otherwise, with the base used
verbatim: nothing trims trailing separators, so a trailing slash on the
base produces a double slash. -/
theorem C6_configRoute (j : RemoteConfigJSON) (base : String) (pid : Int) :
    (j.ConfigRoute ≠ "" → ConfigRoute j base pid =
      j.ConfigRoute ++ "/" ++ "2020-06-18" ++ "/config/" ++ toString pid ++ "/config.json") ∧
    (j.ConfigRoute = "" → ConfigRoute j base pid =
      base ++ "/" ++ "2020-06-18" ++ "/config/" ++ toString pid ++ "/config.json") := by
  constructor
  · intro h
    unfold ConfigRoute
    rw [if_pos h]
    rfl
  · intro h
    unfold ConfigRoute
    rw [if_neg (by simp [h])]
    rfl

/-- C6 witness: both branches evaluated at concrete inputs. -/
theorem C6_configRoute_witness :
    ConfigRoute (RemoteConfigJSON.mk 0 0 0 "route" []) "http://b.example.com" 7 =
      "route" ++ "/" ++ "2020-06-18" ++ "/config/" ++ toString (7 : Int) ++ "/config.json" ∧
    ConfigRoute zeroConfig "http://b.example.com" 7 =
      "http://b.example.com" ++ "/" ++ "2020-06-18" ++ "/config/" ++ toString (7 : Int) ++ "/config.json" :=
  ⟨(C6_configRoute (RemoteConfigJSON.mk 0 0 0 "route" []) "http://b.example.com" 7).1 (by decide),
   (C6_configRoute zeroConfig "http://b.example.com" 7).2 rfl⟩

/-- C7 (counterexample): `poll_sec = 9223372037` is a strictly positive
integer, yet `Interval` does not return 9223372037 seconds: the int64
nanosecond conversion wraps to a negative duration. -/
theorem C7_counterexample :
    IntervalJSON (RemoteConfigJSON.mk 0 0 9223372037 "" []) = -9223372036709551616 ∧
    ¬ IntervalJSON (RemoteConfigJSON.mk 0 0 9223372037 "" []) =
        9223372037 * 1000000000 := by
  constructor
  · decide
  · decide

/-- C7 (amended): for every snapshot with strictly positive `poll_sec`
whose nanosecond value fits in int64, `Interval` returns exactly
`poll_sec` seconds (in nanoseconds); for `poll_sec` zero or negative it
returns the 600-second default; beyond the int64 range the
multiplication wraps. -/
theorem C7_interval (j : RemoteConfigJSON) :
    (0 < j.PollSec → j.PollSec * 1000000000 < 2 ^ 63 →
      IntervalJSON j = j.PollSec * 1000000000) ∧
    (j.PollSec ≤ 0 → IntervalJSON j = 600 * 1000000000) := by
  constructor
  · intro h1 h2
    unfold IntervalJSON int64Wrap
    rw [if_pos h1]
    have hge : (0 : Int) ≤ j.PollSec * 1000000000 :=
      mul_nonneg (le_of_lt h1) (by norm_num)
    have e1 : (2 : Int) ^ 63 = 9223372036854775808 := by norm_num
    have e2 : (2 : Int) ^ 64 = 18446744073709551616 := by norm_num
    rw [Int.emod_eq_of_lt (by omega) (by omega)]
    omega
  · intro h
    unfold IntervalJSON defaultInterval
    rw [if_neg (by omega)]

/-- C7 witness: concrete intervals for `poll_sec` 123 and 0. -/
theorem C7_interval_witness :
    IntervalJSON (RemoteConfigJSON.mk 0 0 123 "" []) = 123 * 1000000000 ∧
    IntervalJSON zeroConfig = 600 * 1000000000 :=
  ⟨(C7_interval (RemoteConfigJSON.mk 0 0 123 "" [])).1 (by decide) (by decide),
   (C7_interval zeroConfig).2 (by decide)⟩

/-- C10: in every reachable state, when `fetchConfig` fails it returns
the currently stored snapshot pointer — which is never nil — alongside
the error, and the store's snapshot (and whole state) is left
unmodified by the enclosing `UpdateConfig`. -/
theorem C10_error_returns_stored (decode : JSONDecoder) (opt : NotifierOptions) (st : RCState)
    (resp : Except String HttpResp) (e : FetchErr)
    (hr : Reachable decode opt st)
    (he : (fetchConfig decode st.JSON resp).snd = some e) :
    (fetchConfig decode st.JSON resp).fst = st.JSON ∧
    st.JSON.isSome = true ∧
    UpdateConfig decode st resp = .ok (st, [], some e) :=
  ⟨fetchConfig_error_fst decode st.JSON resp e he,
   Reachable_JSON_isSome decode opt st hr,
   UpdateConfig_fetch_error decode st resp e he⟩

/-- C10 witness: a transport failure in the freshly constructed state. -/
theorem C10_error_returns_stored_witness :
    (fetchConfig jsonUnmarshalConfig (newRemoteConfig demoOpts).JSON
        (.error "dial tcp: timeout")).fst = (newRemoteConfig demoOpts).JSON ∧
    (newRemoteConfig demoOpts).JSON.isSome = true ∧
    UpdateConfig jsonUnmarshalConfig (newRemoteConfig demoOpts) (.error "dial tcp: timeout") =
      .ok (newRemoteConfig demoOpts, [], some (FetchErr.transport "dial tcp: timeout")) :=
  C10_error_returns_stored jsonUnmarshalConfig demoOpts (newRemoteConfig demoOpts)
    (.error "dial tcp: timeout") (FetchErr.transport "dial tcp: timeout")
    Relation.ReflTransGen.refl rfl

/-- Helper: mapping the redaction function over an association list
preserves every key, so the membership test for any key is unchanged. -/
theorem redact_comp_fst (k2 k : String) (v2 : GoVal) :
    ((fun p : String × GoVal => p.fst == k) ∘
      (fun p : String × GoVal => if p.fst == k2 then (p.fst, v2) else p)) =
    fun p : String × GoVal => p.fst == k := by
  funext p
  by_cases hp : (p.fst == k2) = true
  · simp [Function.comp, hp]
  · simp [Function.comp, hp]

/-- Helper: redaction seen through `lookup`: the value at every matched
key becomes the marker, the value at every other key is unchanged. -/
theorem lookup_redact (m : KVMap) (p : String → Bool) (k : String) :
    (m.map (fun q => if p q.fst then (q.fst, GoVal.str filteredMarker) else q)).lookup k =
      (m.lookup k).map (fun v => if p k then GoVal.str filteredMarker else v) := by
  induction m with
  | nil => rfl
  | cons q rest ih =>
    rcases q with ⟨a, b⟩
    simp only [List.map]
    by_cases hpa : p a = true
    · rw [if_pos hpa]
      simp only [List.lookup]
      cases hk : k == a
      · dsimp only
        exact ih
      · dsimp only
        have hka : k = a := eq_of_beq hk
        rw [hka]
        simp [hpa]
    · rw [if_neg hpa]
      simp only [List.lookup]
      cases hk : k == a
      · dsimp only
        exact ih
      · dsimp only
        have hka : k = a := eq_of_beq hk
        rw [hka]
        simp [hpa]

/-- Helper: after `mapSet` the key is present. -/
theorem mapSet_any (m : KVMap) (k : String) (v : GoVal) :
    ((mapSet m k v).any (fun p => p.fst == k)) = true := by
  unfold mapSet
  split
  · rename_i h
    rw [List.any_map, redact_comp_fst k k v]
    -- same composition lemma applies: the map preserves fst
    exact h
  · rw [List.any_append]
    simp

/-- Helper: after `mapSet` every binding of the key carries the written
value. -/
theorem mapSet_val (m : KVMap) (k : String) (v : GoVal) :
    ∀ q ∈ mapSet m k v, q.fst = k → q.snd = v := by
  intro q hq hk
  unfold mapSet at hq
  split at hq
  · rcases List.mem_map.mp hq with ⟨r, hr, he⟩
    by_cases hrk : (r.fst == k) = true
    · rw [if_pos hrk] at he
      rw [← he]
    · rw [if_neg hrk] at he
      subst he
      exact absurd (beq_iff_eq.mpr hk) hrk
  · rcases List.mem_append.mp hq with h1 | h1
    · rename_i hno
      exfalso
      apply hno
      exact List.any_eq_true.mpr ⟨q, h1, beq_iff_eq.mpr hk⟩
    · simp only [List.mem_singleton] at h1
      rw [h1]

/-- Helper: mapping a function that fixes every member is the
identity. -/
theorem map_id_of_fixed (m : KVMap) (f : String × GoVal → String × GoVal)
    (h : ∀ q ∈ m, f q = q) : m.map f = m := by
  induction m with
  | nil => rfl
  | cons a rest ih =>
    simp only [List.map]
    rw [h a (by simp), ih (fun q hq => h q (by simp [hq]))]

/-- Helper: writing a value that is already everywhere at the key is a
no-op. -/
theorem mapSet_noop (m : KVMap) (k : String) (v : GoVal)
    (hc : (m.any (fun p => p.fst == k)) = true)
    (hv : ∀ q ∈ m, q.fst = k → q.snd = v) :
    mapSet m k v = m := by
  unfold mapSet
  rw [if_pos hc]
  apply map_id_of_fixed
  intro q hq
  by_cases hqk : (q.fst == k) = true
  · rw [if_pos hqk]
    have h2 : q.snd = v := hv q hq (eq_of_beq hqk)
    rcases q with ⟨a, b⟩
    simp only at h2
    rw [h2]
  · rw [if_neg hqk]

/-- Helper: `mapSet` at a different key preserves presence of `k`. -/
theorem mapSet_keeps_any (m : KVMap) (k k2 : String) (v2 : GoVal)
    (hne : (k2 == k) = false) :
    ((mapSet m k2 v2).any (fun p => p.fst == k)) = (m.any (fun p => p.fst == k)) := by
  unfold mapSet
  split
  · rw [List.any_map, redact_comp_fst k2 k v2]
  · rw [List.any_append]
    simp [hne]

/-- Helper: `mapSet` at a different key preserves the values stored at
`k`. -/
theorem mapSet_keeps_val (m : KVMap) (k k2 : String) (v v2 : GoVal)
    (hne : (k2 == k) = false)
    (hv : ∀ q ∈ m, q.fst = k → q.snd = v) :
    ∀ q ∈ mapSet m k2 v2, q.fst = k → q.snd = v := by
  intro q hq hk
  unfold mapSet at hq
  split at hq
  · rcases List.mem_map.mp hq with ⟨r, hr, he⟩
    by_cases hrk : (r.fst == k2) = true
    · rw [if_pos hrk] at he
      exfalso
      have h1 : r.fst = k2 := eq_of_beq hrk
      have h2 : q.fst = r.fst := by rw [← he]
      rw [h2, h1] at hk
      rw [hk] at hne
      simp at hne
    · rw [if_neg hrk] at he
      subst he
      exact hv r hr hk
  · rcases List.mem_append.mp hq with h1 | h1
    · exact hv q h1 hk
    · exfalso
      simp only [List.mem_singleton] at h1
      rw [h1] at hk
      simp only at hk
      rw [hk] at hne
      simp at hne

/-- C8: for every notice and key, `NewBlacklistKeysFilter` with an
exact string key succeeds and replaces the value at every equal key in
all three maps with the marker, leaving other keys unchanged; with a
regular-expression key it does the same at every matched key; with a
key of any other type it panics (fail-fast), not returning a notice. -/
theorem C8_redaction (n : Notice) (key : BlacklistKey) :
    (∀ s, key = BlacklistKey.str s →
      (NewBlacklistKeysFilter [key] n).isOk = true ∧
      ∀ out, NewBlacklistKeysFilter [key] n = .ok out →
        RedactedBy (fun k => k == s) n.Context out.Context ∧
        RedactedBy (fun k => k == s) n.Env out.Env ∧
        RedactedBy (fun k => k == s) n.Session out.Session) ∧
    (∀ f, key = BlacklistKey.regex f →
      (NewBlacklistKeysFilter [key] n).isOk = true ∧
      ∀ out, NewBlacklistKeysFilter [key] n = .ok out →
        RedactedBy f n.Context out.Context ∧
        RedactedBy f n.Env out.Env ∧
        RedactedBy f n.Session out.Session) ∧
    (∀ t, key = BlacklistKey.other t →
      NewBlacklistKeysFilter [key] n = .error GoPanic.unsupportedBlacklistKeyType) := by
  refine ⟨fun s hk => ?_, fun f hk => ?_, fun t hk => ?_⟩
  · subst hk
    have hcomp : NewBlacklistKeysFilter [BlacklistKey.str s] n =
        .ok (Notice.mk
          (n.Context.map (fun p => if p.fst == s then (p.fst, GoVal.str filteredMarker) else p))
          (n.Env.map (fun p => if p.fst == s then (p.fst, GoVal.str filteredMarker) else p))
          (n.Session.map (fun p => if p.fst == s then (p.fst, GoVal.str filteredMarker) else p)))
        := rfl
    constructor
    · rw [hcomp]
      rfl
    · intro out hout
      rw [hcomp] at hout
      simp only [Except.ok.injEq] at hout
      subst hout
      exact ⟨fun k => lookup_redact n.Context (fun x => x == s) k,
             fun k => lookup_redact n.Env (fun x => x == s) k,
             fun k => lookup_redact n.Session (fun x => x == s) k⟩
  · subst hk
    have hcomp : NewBlacklistKeysFilter [BlacklistKey.regex f] n =
        .ok (Notice.mk
          (n.Context.map (fun p => if f p.fst then (p.fst, GoVal.str filteredMarker) else p))
          (n.Env.map (fun p => if f p.fst then (p.fst, GoVal.str filteredMarker) else p))
          (n.Session.map (fun p => if f p.fst then (p.fst, GoVal.str filteredMarker) else p)))
        := rfl
    constructor
    · rw [hcomp]
      rfl
    · intro out hout
      rw [hcomp] at hout
      simp only [Except.ok.injEq] at hout
      subst hout
      exact ⟨fun k => lookup_redact n.Context f k,
             fun k => lookup_redact n.Env f k,
             fun k => lookup_redact n.Session f k⟩
  · subst hk
    rfl

/-- C8 witness: the exact key "password" on the example map, and the
"_token" suffix pattern redacting both token keys. -/
theorem C8_redaction_witness :
    NewBlacklistKeysFilter [BlacklistKey.str "password"] demoNotice = .ok demoRedactedNotice ∧
    RedactedBy (fun k => k == "password") demoNotice.Context demoRedactedNotice.Context ∧
    NewBlacklistKeysFilter [BlacklistKey.regex (fun k => goHasSuffix k "_token")] tokenNotice =
      .ok tokenRedactedNotice ∧
    RedactedBy (fun k => goHasSuffix k "_token") tokenNotice.Env tokenRedactedNotice.Env := by
  refine ⟨by rfl, ?_, by rfl, ?_⟩
  · exact (((C8_redaction demoNotice (BlacklistKey.str "password")).1 "password" rfl).2
      demoRedactedNotice (by rfl)).1
  · exact (((C8_redaction tokenNotice
      (BlacklistKey.regex (fun k => goHasSuffix k "_token"))).2.1 _ rfl).2
      tokenRedactedNotice (by rfl)).2.1

/-- C9: the environment/revision enrichment filter is idempotent:
applying it twice with the same static options yields the same notice
as applying it once. -/
theorem C9_notifier_filter_idempotent (opt : NotifierOptions) (n : Notice) :
    newNotifierFilter opt (newNotifierFilter opt n) = newNotifierFilter opt n := by
  by_cases he : opt.Environment = ""
  · by_cases hr : opt.Revision = ""
    · simp [newNotifierFilter, he, hr]
    · simp only [newNotifierFilter, he, hr, ne_eq, not_true_eq_false, not_false_eq_true,
        if_true, if_false, ite_false, ite_true]
      rw [mapSet_noop _ _ _ (mapSet_any _ _ _) (mapSet_val _ _ _)]
  · by_cases hr : opt.Revision = ""
    · simp only [newNotifierFilter, he, hr, ne_eq, not_true_eq_false, not_false_eq_true,
        if_true, if_false, ite_false, ite_true]
      rw [mapSet_noop _ _ _ (mapSet_any _ _ _) (mapSet_val _ _ _)]
    · simp only [newNotifierFilter, he, hr, ne_eq, not_true_eq_false, not_false_eq_true,
        if_true, if_false, ite_false, ite_true]
      have hA : mapSet (mapSet (mapSet n.Context "environment" (GoVal.str opt.Environment))
          "revision" (GoVal.str opt.Revision)) "environment" (GoVal.str opt.Environment) =
          mapSet (mapSet n.Context "environment" (GoVal.str opt.Environment))
            "revision" (GoVal.str opt.Revision) :=
        mapSet_noop _ "environment" (GoVal.str opt.Environment)
          (by
            rw [mapSet_keeps_any (mapSet n.Context "environment" (GoVal.str opt.Environment))
              "environment" "revision" (GoVal.str opt.Revision) (by decide)]
            exact mapSet_any n.Context "environment" (GoVal.str opt.Environment))
          (mapSet_keeps_val (mapSet n.Context "environment" (GoVal.str opt.Environment))
            "environment" "revision" (GoVal.str opt.Environment) (GoVal.str opt.Revision)
            (by decide)
            (mapSet_val n.Context "environment" (GoVal.str opt.Environment)))
      rw [hA]
      have hB : mapSet (mapSet (mapSet n.Context "environment" (GoVal.str opt.Environment))
          "revision" (GoVal.str opt.Revision)) "revision" (GoVal.str opt.Revision) =
          mapSet (mapSet n.Context "environment" (GoVal.str opt.Environment))
            "revision" (GoVal.str opt.Revision) :=
        mapSet_noop _ "revision" (GoVal.str opt.Revision)
          (mapSet_any (mapSet n.Context "environment" (GoVal.str opt.Environment))
            "revision" (GoVal.str opt.Revision))
          (mapSet_val (mapSet n.Context "environment" (GoVal.str opt.Environment))
            "revision" (GoVal.str opt.Revision))
      rw [hB]
